import Mathlib

/-!
Shallow embedding of the voice-ai-agent turn-taking and playback engine.

The embedding covers, translated from the TypeScript source:
  - `src/utils/responseGenerator.ts` (intent/emotion classifier, response
    selection, voice-style map);
  - the endpoint detector of `VoiceInput` (the `onResult` silence timer and
    `handleAutoStop`, part_006 variant with the `latestTranscript` ref);
  - the turn controller `handleAnswerRequest` of `VoiceConversation`;
  - the `ElevenLabsTTS` component (`handleSpeak`, auto-speak effect, manual
    play button, blob-URL lifecycle) and the TTS component selection of
    `VoiceConversation`.

React `useState` state is modelled as a record updated synchronously by each
handler; `useRef` cells are further record fields; `Math.random()` draws are
modelled as explicit `Nat` index parameters reduced modulo the pool length.
-/

namespace VAgent

/-- Lower-cases a string character by character, as `String.prototype.toLowerCase`
does for the ASCII texts handled here. -/
def lowerStr (s : String) : String := ⟨s.data.map Char.toLower⟩

/-- Boolean test that the first list is an initial segment of the second. -/
def isPrefixL : List Char → List Char → Bool
  | [], _ => true
  | _ :: _, [] => false
  | p :: ps, c :: cs => p == c && isPrefixL ps cs

/-- Boolean test that `sub` occurs as a contiguous sublist of the second list. -/
def hasSubL (sub : List Char) : List Char → Bool
  | [] => sub.isEmpty
  | c :: cs => isPrefixL sub (c :: cs) || hasSubL sub cs

/-- JavaScript `s.includes(sub)`: substring occurrence test. -/
def includes (s sub : String) : Bool := hasSubL sub.data s.data

/-- JavaScript `s.startsWith(p)`. -/
def startsWith (s p : String) : Bool := isPrefixL p.data s.data

/-- Whitespace predicate used by `trim` for the texts handled here. -/
def isWS (c : Char) : Bool := c == ' ' || c == '\t' || c == '\n' || c == '\r'

/-- JavaScript `s.trim()`: drops leading and trailing whitespace. -/
def trimStr (s : String) : String :=
  ⟨((s.data.dropWhile isWS).reverse.dropWhile isWS).reverse⟩

/-! Response generator pools, from the `ResponseGenerator` class fields. -/

/-- Greeting response pool (`greetings` in responseGenerator.ts). -/
def greetings : List String :=
  ["Hello! How can I help you today?",
   "Hi there! What would you like to talk about?",
   "Greetings! I\x27m here to assist you.",
   "Hey! What\x27s on your mind?",
   "Good day! How may I assist you?"]

/-- Confirmation response pool (`confirmations` in responseGenerator.ts). -/
def confirmations : List String :=
  ["I understand what you\x27re saying.",
   "That makes sense to me.",
   "I hear you loud and clear.",
   "Got it! Thanks for sharing that.",
   "I see what you mean."]

/-- Encouragement response pool (`encouragements` in responseGenerator.ts). -/
def encouragements : List String :=
  ["That sounds really interesting!",
   "Tell me more about that!",
   "How fascinating! Please continue.",
   "I\x27d love to hear more details.",
   "That\x27s quite intriguing!"]

/-- Goodbye response pool (`goodbyes` in responseGenerator.ts). -/
def goodbyes : List String :=
  ["It was great talking with you! Have a wonderful day!",
   "Thanks for the conversation! Take care!",
   "Goodbye! Feel free to chat anytime.",
   "See you later! Have a great time ahead!",
   "Farewell! It was a pleasure talking with you."]

/-- The `getRandomFromArray` draw, with `Math.floor(Math.random() * len)`
modelled by an arbitrary natural number reduced modulo the length. -/
def getRandomFromArray (k : Nat) (a : List String) : String :=
  a.getD (k % a.length) ""

/-- The `detectEmotion` keyword cascade of responseGenerator.ts. -/
def detectEmotion (input : String) : String :=
  let lowerInput := lowerStr input
  if includes lowerInput "happy" || includes lowerInput "excited" ||
     includes lowerInput "great" || includes lowerInput "awesome" ||
     includes lowerInput "wonderful" || includes lowerInput "amazing" then
    "excited"
  else if includes lowerInput "sad" || includes lowerInput "upset" ||
          includes lowerInput "disappointed" || includes lowerInput "down" then
    "gentle"
  else if includes lowerInput "business" || includes lowerInput "work" ||
          includes lowerInput "professional" || includes lowerInput "meeting" then
    "professional"
  else if includes lowerInput "friend" || includes lowerInput "chat" ||
          includes lowerInput "talk" || includes lowerInput "hey" ||
          includes lowerInput "hi " || startsWith lowerInput "hi" then
    "friendly"
  else
    "neutral"

/-- The `detectIntent` keyword cascade of responseGenerator.ts. -/
def detectIntent (input : String) : String :=
  let lowerInput := lowerStr input
  if includes lowerInput "hello" || includes lowerInput "hi" ||
     includes lowerInput "hey" || includes lowerInput "good morning" ||
     includes lowerInput "good evening" then
    "greeting"
  else if includes lowerInput "bye" || includes lowerInput "goodbye" ||
          includes lowerInput "see you" || includes lowerInput "farewell" ||
          includes lowerInput "talk to you later" then
    "goodbye"
  else if includes lowerInput "thank" || includes lowerInput "thanks" then
    "thanks"
  else if includes lowerInput "?" || includes lowerInput "what" ||
          includes lowerInput "how" || includes lowerInput "why" ||
          includes lowerInput "when" || includes lowerInput "where" then
    "question"
  else if includes lowerInput "help" || includes lowerInput "assist" ||
          includes lowerInput "support" then
    "help"
  else
    "conversation"

/-- The `generateContextualResponse` switch. Random draws are positional: `r0`
is the first draw of the taken branch, `r1`-`r3` the later draws of the
`conversation` branch (template 1, template 2, final pick over the pool). -/
def generateContextualResponse (r0 r1 r2 r3 : Nat) (intent emotion : String) : String :=
  if intent == "greeting" then getRandomFromArray r0 greetings
  else if intent == "goodbye" then getRandomFromArray r0 goodbyes
  else if intent == "thanks" then
    "You\x27re very welcome! I\x27m glad I could help you."
  else if intent == "question" then
    "That\x27s a great question! While I\x27m a voice interface demo, I can reflect on what you\x27re asking. "
      ++ getRandomFromArray r0 encouragements
  else if intent == "help" then
    "I\x27m here to help! I can listen to what you say and respond with different voice styles. "
      ++ "Try asking me something or just have a conversation!"
  else if intent == "conversation" then
    let responses :=
      [getRandomFromArray r0 confirmations ++ " You mentioned something really thoughtful.",
       "I find that quite interesting! " ++ getRandomFromArray r1 encouragements,
       getRandomFromArray r2 confirmations ++ " That sounds like something worth exploring further.",
       "Thanks for sharing that with me! I appreciate your perspective on this.",
       "That\x27s a fascinating point! I can tell you\x27ve put thought into this."]
    let responses :=
      if emotion == "excited" then
        responses ++ ["Your enthusiasm is contagious! I love your energy!",
                      "How exciting! That sounds absolutely wonderful!"]
      else if emotion == "gentle" then
        responses ++ ["I understand this might be difficult to talk about. I\x27m here to listen.",
                      "Thank you for sharing something so personal with me."]
      else if emotion == "professional" then
        responses ++ ["I appreciate you bringing this professional matter to my attention.",
                      "That\x27s a very professional approach to handling this situation."]
      else responses
    getRandomFromArray r3 responses
  else getRandomFromArray r0 confirmations

/-- Result record of `generateResponse` (interface `GeneratedResponse`). -/
structure GeneratedResponse where
  text : String
  emotion : String
  suggestedVoiceStyle : String
deriving Repr, DecidableEq

/-- The `voiceStyleMap` record lookup of `generateResponse`; `none` models a
key absent from the map. -/
def voiceStyleMap (e : String) : Option String :=
  if e == "excited" then some "excited"
  else if e == "gentle" then some "gentle"
  else if e == "professional" then some "professional"
  else if e == "friendly" then some "friendly"
  else if e == "neutral" then some "neutral"
  else if e == "confident" then some "confident"
  else none

/-- The top-level `generateResponse` of responseGenerator.ts. The
`conversationHistory` context field is ignored by the source and omitted. -/
def generateResponse (r0 r1 r2 r3 : Nat) (userInput : String) : GeneratedResponse :=
  if userInput == "" || trimStr userInput == "" then
    { text := "I didn\x27t catch that. Could you please say something?",
      emotion := "neutral",
      suggestedVoiceStyle := "friendly" }
  else
    let detectedEmotion := detectEmotion userInput
    let intent := detectIntent userInput
    let responseText := generateContextualResponse r0 r1 r2 r3 intent detectedEmotion
    { text := responseText,
      emotion := detectedEmotion,
      suggestedVoiceStyle := (voiceStyleMap detectedEmotion).getD "friendly" }

/-!
Endpoint detector, from the `VoiceInput` component (part_006 variant: silence
threshold 1000 ms, `latestTranscript` ref, `isProcessing` ref). React state is
modelled as synchronously updated record fields; the `onAnswerRequest` dispatch
that the source schedules 100 ms after acceptance is recorded directly in
`emitted` (the trailing reset of `isProcessing` happens after the traces
considered here end).
-/

/-- State of the `VoiceInput` endpoint detector. -/
structure DetState where
  transcriptState : String
  latestRef : String
  timerActive : Bool
  processing : Bool
  emitted : List String
deriving Repr, DecidableEq

/-- Detector state on mount / after `handleStartListening` resets. -/
def initDet : DetState :=
  { transcriptState := "", latestRef := "", timerActive := false,
    processing := false, emitted := [] }

/-- The `onResult` callback: store the hypothesis in both the React state and
the `latestTranscript` ref, clear any pending silence timer and start a new
one. -/
def onResult (r : String) (s : DetState) : DetState :=
  { s with transcriptState := r, latestRef := r, timerActive := true }

/-- The `handleAutoStop` function. `finalTranscript` is the argument the timer
callback passes (`latestTranscript.current` read at fire time); the
`finalTranscript || transcript` fallback reads the React state when the
argument is the empty string. -/
def handleAutoStop (finalTranscript : String) (s : DetState) : DetState :=
  let transcriptToUse := if finalTranscript == "" then s.transcriptState else finalTranscript
  if s.processing then s
  else if trimStr transcriptToUse == "" then { s with processing := false }
  else { s with processing := true, emitted := s.emitted ++ [transcriptToUse] }

/-- Detector events: a hypothesis delivery or the silence timer firing. -/
inductive DetEv where
  | hyp : String → DetEv
  | fire : DetEv
deriving Repr, DecidableEq

/-- One detector step. A `fire` is only effective when a timer is pending; the
timer callback reads `latestTranscript.current` at fire time and the elapsed
timer is no longer pending. -/
def detStep (s : DetState) : DetEv → DetState
  | DetEv.hyp r => onResult r s
  | DetEv.fire =>
      if s.timerActive then handleAutoStop s.latestRef { s with timerActive := false } else s

/-- Runs the detector from the initial state over a list of events. -/
def runDet (evs : List DetEv) : DetState := evs.foldl detStep initDet

/-- Converts timed hypotheses `(arrival time, text)` into the induced event
sequence: the timer restarted at `t₁` fires iff the next hypothesis arrives no
earlier than `t₁ + th` (the `clearTimeout` cancel-and-restart semantics), and
the stream is followed by an unbounded quiet gap, so the final timer always
fires. -/
def eventsOf (th : Nat) : List (Nat × String) → List DetEv
  | [] => []
  | [(_, h)] => [DetEv.hyp h, DetEv.fire]
  | (t1, h1) :: (t2, h2) :: rest =>
      DetEv.hyp h1 ::
        ((if t1 + th ≤ t2 then [DetEv.fire] else []) ++ eventsOf th ((t2, h2) :: rest))

/-!
Turn controller, from `handleAnswerRequest` of the `VoiceConversation`
component (identical guard and try/catch/finally structure in both source
variants). The classify/respond step is passed as a function returning
`Option GeneratedResponse`, `none` modelling a thrown exception caught by the
`catch` branch.
-/

/-- One entry of the conversation log (`ConversationMessage`). -/
structure ConvMessage where
  mtype : String
  text : String
deriving Repr, DecidableEq

/-- State of the `VoiceConversation` turn controller. -/
structure ConvState where
  messages : List ConvMessage
  isProcessing : Bool
  lastProcessedInput : String
  currentAIResponse : String
deriving Repr, DecidableEq

/-- Initial conversation state. -/
def initConv : ConvState :=
  { messages := [], isProcessing := false, lastProcessedInput := "", currentAIResponse := "" }

/-- The fixed apologetic agent message of the `catch` branch. -/
def genErrorMessage : String :=
  "I\x27m sorry, I encountered an issue generating a response. Please try again."

/-- The `handleAnswerRequest` turn submission: guard rejects, then user
message, classify/respond, agent message, and the `finally` lock release. -/
def handleAnswerRequest (gen : String → Option GeneratedResponse)
    (transcript : String) (s : ConvState) : ConvState :=
  if trimStr transcript == "" || s.isProcessing || transcript == s.lastProcessedInput then s
  else
    let s1 := { s with lastProcessedInput := transcript, isProcessing := true,
                       messages := s.messages ++ [ConvMessage.mk "user" transcript] }
    match gen transcript with
    | some resp =>
        { s1 with messages := s1.messages ++ [ConvMessage.mk "ai" resp.text],
                  currentAIResponse := resp.text, isProcessing := false }
    | none =>
        { s1 with messages := s1.messages ++ [ConvMessage.mk "ai" genErrorMessage],
                  currentAIResponse := genErrorMessage, isProcessing := false }

/-- The actual pipeline step: `responseGenerator.generateResponse` is total, so
it always yields a response. -/
def genTotal (r0 r1 r2 r3 : Nat) : String → Option GeneratedResponse :=
  fun t => some (generateResponse r0 r1 r2 r3 t)

/-!
TTS component selection, from `VoiceConversation` (part_006): the rendered TTS
component is chosen once from the environment configuration, and only the
remote component has an error channel wired (`onError={setTtsError}`); the
`SimpleTTS` local component is rendered without any error prop.
-/

/-- Which TTS component `VoiceConversation` renders. -/
inductive TTSChoice where
  | remote
  | localBrowser
deriving Repr, DecidableEq

/-- The `useElevenLabs` flag:
`process.env.REACT_APP_USE_ELEVENLABS !== 'false' && !!elevenLabsApiKey`. -/
def useElevenLabs (envUse : Option String) (apiKey : Option String) : Bool :=
  (envUse != some "false") &&
    (match apiKey with
     | some k => k != ""
     | none => false)

/-- The TTS component rendered for the current AI response (none when the
response is empty, since the block is guarded by `currentAIResponse &&`). -/
def renderedTTS (envUse apiKey : Option String) (currentAIResponse : String) :
    Option TTSChoice :=
  if currentAIResponse == "" then none
  else some (if useElevenLabs envUse apiKey then TTSChoice.remote else TTSChoice.localBrowser)

/-- Whether the rendered component has an error callback wired to the parent
notice (`onError={setTtsError}` appears only on `ElevenLabsTTS`). -/
def onErrorWired : TTSChoice → Bool
  | TTSChoice.remote => true
  | TTSChoice.localBrowser => false

/-!
The `ElevenLabsTTS` component: `handleSpeak` outcome, the auto-speak effect
guard, and the manual play button. The remote generation call is passed as an
`Except` (error message or blob URL) and the `audio.play()` outcome as a
`PlayOutcome`; `canplayFired` says whether the `oncanplay` handler ran before
`play()` settled. `onErrorLog` records the `onError` prop invocations;
`localCalls` records invocations of the browser speech-synthesis fallback —
the component contains no such call, so no branch appends to it.
-/

/-- Outcome of the `audio.play()` promise. -/
inductive PlayOutcome where
  | ok
  | notAllowed
  | failed : String → PlayOutcome
deriving Repr, DecidableEq

/-- Relevant state of the `ElevenLabsTTS` component. -/
structure TtsState where
  error : String
  isSpeaking : Bool
  isLoading : Bool
  needsUserInteraction : Bool
  onErrorLog : List String
  localCalls : List String
deriving Repr, DecidableEq

/-- Initial `ElevenLabsTTS` state. -/
def initTts : TtsState :=
  { error := "", isSpeaking := false, isLoading := false,
    needsUserInteraction := false, onErrorLog := [], localCalls := [] }

/-- The `handleSpeak` callback, as the state it leaves once the generation
request and the playback attempt have settled. -/
def handleSpeak (text : String) (hasService : Bool) (gen : Except String String)
    (play : PlayOutcome) (canplayFired : Bool) (s : TtsState) : TtsState :=
  if trimStr text == "" then s
  else if !hasService then
    { s with error := "ElevenLabs service not initialized. Please provide an API key.",
             onErrorLog := s.onErrorLog ++ ["ElevenLabs service not initialized"] }
  else
    match gen with
    | Except.error msg =>
        { s with error := msg, isSpeaking := false, isLoading := false,
                 onErrorLog := s.onErrorLog ++ [msg] }
    | Except.ok _url =>
        match play with
        | PlayOutcome.ok =>
            { s with error := "", isLoading := false, isSpeaking := true }
        | PlayOutcome.notAllowed =>
            { s with error := "Tap to enable audio playback", isLoading := false,
                     isSpeaking := canplayFired || s.isSpeaking,
                     needsUserInteraction := true }
        | PlayOutcome.failed msg =>
            { s with error := msg, isSpeaking := false, isLoading := false,
                     onErrorLog := s.onErrorLog ++ [msg] }

/-- Guard of the auto-speak effect: whether a retry timer would be scheduled
for the given props and state (desktop branch, then mobile branch). -/
def autoSpeakFires (isMobile autoSpeak : Bool) (text lastSpokenText : String)
    (hasService : Bool) (s : TtsState) : Bool :=
  (!isMobile && autoSpeak && text != "" && trimStr text != "" &&
     text != lastSpokenText && !s.isSpeaking && !s.isLoading && hasService &&
     s.error == "")
  || (isMobile && autoSpeak && text != "" && trimStr text != "" &&
        text != lastSpokenText && !s.needsUserInteraction)

/-- What a click of the manual button does. -/
inductive ButtonAction where
  | speakAct
  | stopAct
deriving Repr, DecidableEq

/-- The manual play/stop button as rendered, if at all: the button block sits
inside `!hideText` and is guarded by
`elevenLabsService && !error && (!autoSpeak || isMobile || needsUserInteraction)`;
when rendered, it carries the label of the source's ternary chain and its
click dispatches `handleStop` when `isLoading || isSpeaking`, else
`handleSpeak`. -/
def renderedButton (hideText autoSpeak isMobile hasService : Bool) (s : TtsState) :
    Option (String × ButtonAction) :=
  if hideText then none
  else if hasService && s.error == "" && (!autoSpeak || isMobile || s.needsUserInteraction) then
    some (if s.isLoading then "Generating..."
          else if s.isSpeaking then "Stop"
          else if s.needsUserInteraction then "Tap to Enable Audio"
          else "Play with ElevenLabs",
          if s.isLoading || s.isSpeaking then ButtonAction.stopAct else ButtonAction.speakAct)
  else none

/-!
Blob-URL lifecycle of `ElevenLabsTTS`, as a trace machine. Each successful
generation allocates a fresh object URL (ids in allocation order); `revokes`
counts, per id, the `URL.revokeObjectURL` calls: one from `onended`, one from
`onerror`, and one from the cleanup of the `[currentAudio]` effect, which runs
when `currentAudio` is superseded and on unmount and revokes the old element's
blob `src` unconditionally. `handleStop` only pauses and revokes nothing.
-/

/-- Resource-tracking state of the playback manager. -/
structure PbState where
  current : Option Nat
  allocated : Nat
  revokes : Nat → Nat

/-- Initial playback state: no audio element, nothing allocated. -/
def initPb : PbState := { current := none, allocated := 0, revokes := fun _ => 0 }

/-- Increments the revoke count of resource `r` (one `URL.revokeObjectURL`). -/
def bumpRevoke (f : Nat → Nat) (r : Nat) : Nat → Nat :=
  fun j => if j = r then f j + 1 else f j

/-- Playback lifecycle events. -/
inductive PbEv where
  | speakGen
  | speakGenFail
  | ended
  | audioError
  | stopClick
deriving Repr, DecidableEq

/-- One playback step. `speakGen`: generation succeeded, a fresh URL becomes
the new `currentAudio`, and the `[currentAudio]` effect cleanup revokes the
previous element's URL. `speakGenFail`: generation failed before any URL was
created. `ended`/`audioError`: the media handler revokes the current URL.
`stopClick`: pause only. -/
def pbStep (s : PbState) : PbEv → PbState
  | PbEv.speakGen =>
      let rv := match s.current with
        | some r => bumpRevoke s.revokes r
        | none => s.revokes
      { current := some s.allocated, allocated := s.allocated + 1, revokes := rv }
  | PbEv.speakGenFail => s
  | PbEv.ended =>
      { s with revokes := match s.current with
          | some r => bumpRevoke s.revokes r
          | none => s.revokes }
  | PbEv.audioError =>
      { s with revokes := match s.current with
          | some r => bumpRevoke s.revokes r
          | none => s.revokes }
  | PbEv.stopClick => s

/-- Unmount: the `[currentAudio]` effect cleanup pauses the current element
and revokes its blob URL. -/
def unmountPb (s : PbState) : PbState :=
  { s with revokes := match s.current with
      | some r => bumpRevoke s.revokes r
      | none => s.revokes }

/-- Runs a playback trace from the initial state and ends it with unmount. -/
def runPb (evs : List PbEv) : PbState := unmountPb (evs.foldl pbStep initPb)

/-! Helper lemmas shared by the claim theorems. -/

/-- A draw from a nonempty pool is a member of the pool. -/
theorem getRandomFromArray_mem (k : Nat) (a : List String) (h : a ≠ []) :
    getRandomFromArray k a ∈ a := by
  unfold getRandomFromArray
  have hlen : 0 < a.length := List.length_pos.2 h
  have hk : k % a.length < a.length := Nat.mod_lt _ hlen
  rw [List.getD_eq_getElem?_getD, List.getElem?_eq_getElem hk]
  exact List.getElem_mem hk

/-- Unfolding of `generateResponse` on input that passes the emptiness guard. -/
theorem generateResponse_nonempty (r0 r1 r2 r3 : Nat) (inp : String)
    (h : (inp == "" || trimStr inp == "") = false) :
    generateResponse r0 r1 r2 r3 inp =
      { text := generateContextualResponse r0 r1 r2 r3 (detectIntent inp) (detectEmotion inp),
        emotion := detectEmotion inp,
        suggestedVoiceStyle := (voiceStyleMap (detectEmotion inp)).getD "friendly" } := by
  unfold generateResponse
  rw [h]
  simp

/-- On the `greeting` intent, `generateContextualResponse` draws from the
greeting pool with its first random index. -/
theorem gcr_greeting (r0 r1 r2 r3 : Nat) (e : String) :
    generateContextualResponse r0 r1 r2 r3 "greeting" e = getRandomFromArray r0 greetings := rfl

/-- C6 counterexample: on the input of Scenario C the classifier does not
return intent `conversation` — the substring check `includes('hi')` matches
inside the word `this`, so `detectIntent` returns `greeting`. -/
theorem scenarioC_intent_is_greeting :
    detectIntent "I\x27m so excited about this!" = "greeting"
    ∧ detectIntent "I\x27m so excited about this!" ≠ "conversation"
    ∧ includes (lowerStr "I\x27m so excited about this!") "hi" = true := by
  refine ⟨by decide, by decide, by decide⟩

/-- C6 (amended): for the input of Scenario C the emotion is `excited` (the
excited match wins) and the suggested voice style is `excited`, but the intent
is `greeting` — `includes('hi')` matches inside `this` — and the response text
is a member of the greeting pool, for every sequence of random draws. -/
theorem scenarioC_amended_behavior (r0 r1 r2 r3 : Nat) :
    (generateResponse r0 r1 r2 r3 "I\x27m so excited about this!").emotion = "excited"
    ∧ (generateResponse r0 r1 r2 r3 "I\x27m so excited about this!").suggestedVoiceStyle = "excited"
    ∧ detectIntent "I\x27m so excited about this!" = "greeting"
    ∧ (generateResponse r0 r1 r2 r3 "I\x27m so excited about this!").text ∈ greetings := by
  have hemo : detectEmotion "I\x27m so excited about this!" = "excited" := by decide
  have hint : detectIntent "I\x27m so excited about this!" = "greeting" := by decide
  have hg := generateResponse_nonempty r0 r1 r2 r3 "I\x27m so excited about this!" (by decide)
  refine ⟨?_, ?_, hint, ?_⟩
  · rw [hg]; exact hemo
  · rw [hg]
    show (voiceStyleMap (detectEmotion "I\x27m so excited about this!")).getD "friendly" = "excited"
    rw [hemo]; decide
  · rw [hg]
    show generateContextualResponse r0 r1 r2 r3 (detectIntent "I\x27m so excited about this!")
      (detectEmotion "I\x27m so excited about this!") ∈ greetings
    rw [hint, gcr_greeting]
    exact getRandomFromArray_mem r0 greetings (by decide)

/-- C7 counterexample: for the input of Scenario A the detected emotion is
`neutral`, not `friendly` — `hello` contains neither `hi ` (with space) nor
any other friendly keyword and does not start with `hi` — so the suggested
voice style is `neutral` as well. -/
theorem scenarioA_emotion_is_neutral :
    detectEmotion "Hello" = "neutral"
    ∧ detectEmotion "Hello" ≠ "friendly"
    ∧ (generateResponse 0 0 0 0 "Hello").suggestedVoiceStyle = "neutral" := by
  refine ⟨by decide, by decide, by decide⟩

/-- C7 (amended): for the input `Hello` the intent is `greeting` and the
response is drawn from the greeting pool, but the detected emotion is
`neutral` — no friendly keyword matches — and the suggested voice style is
`neutral`, for every sequence of random draws. -/
theorem scenarioA_amended_behavior (r0 r1 r2 r3 : Nat) :
    detectIntent "Hello" = "greeting"
    ∧ (generateResponse r0 r1 r2 r3 "Hello").text ∈ greetings
    ∧ (generateResponse r0 r1 r2 r3 "Hello").emotion = "neutral"
    ∧ (generateResponse r0 r1 r2 r3 "Hello").suggestedVoiceStyle = "neutral" := by
  have hemo : detectEmotion "Hello" = "neutral" := by decide
  have hint : detectIntent "Hello" = "greeting" := by decide
  have hg := generateResponse_nonempty r0 r1 r2 r3 "Hello" (by decide)
  refine ⟨hint, ?_, ?_, ?_⟩
  · rw [hg]
    show generateContextualResponse r0 r1 r2 r3 (detectIntent "Hello") (detectEmotion "Hello") ∈ greetings
    rw [hint, gcr_greeting]
    exact getRandomFromArray_mem r0 greetings (by decide)
  · rw [hg]; exact hemo
  · rw [hg]
    show (voiceStyleMap (detectEmotion "Hello")).getD "friendly" = "neutral"
    rw [hemo]; decide

/-- C10: on every input that is non-empty after trimming, the detected emotion
is one of the five values `excited`, `gentle`, `professional`, `friendly`,
`neutral`, the returned emotion is the detected one, and the suggested voice
style equals the detected emotion — the `friendly` default of the style lookup
and its `confident` entry are never exercised. -/
theorem emotion_set_and_style_identity (r0 r1 r2 r3 : Nat) (s : String)
    (h : trimStr s ≠ "") :
    detectEmotion s ∈ ["excited", "gentle", "professional", "friendly", "neutral"]
    ∧ (generateResponse r0 r1 r2 r3 s).emotion = detectEmotion s
    ∧ (generateResponse r0 r1 r2 r3 s).suggestedVoiceStyle = detectEmotion s := by
  have hmem : detectEmotion s ∈ ["excited", "gentle", "professional", "friendly", "neutral"] := by
    unfold detectEmotion
    dsimp only
    split_ifs <;> simp
  have hs0 : s ≠ "" := by
    intro hcon
    apply h
    rw [hcon]
    rfl
  have hguard : (s == "" || trimStr s == "") = false := by
    rw [beq_eq_false_iff_ne.mpr hs0, beq_eq_false_iff_ne.mpr h]
    rfl
  have hg := generateResponse_nonempty r0 r1 r2 r3 s hguard
  refine ⟨hmem, by rw [hg], ?_⟩
  rw [hg]
  show (voiceStyleMap (detectEmotion s)).getD "friendly" = detectEmotion s
  simp only [List.mem_cons, List.not_mem_nil, or_false] at hmem
  rcases hmem with h1 | h1 | h1 | h1 | h1
  · rw [h1]; decide
  · rw [h1]; decide
  · rw [h1]; decide
  · rw [h1]; decide
  · rw [h1]; decide

/-- C10 witness: the concrete input `Hello` is non-empty after trimming and
its detected emotion, returned emotion and suggested style agree. -/
theorem emotion_set_and_style_identity_witness :
    detectEmotion "Hello" ∈ ["excited", "gentle", "professional", "friendly", "neutral"]
    ∧ (generateResponse 0 0 0 0 "Hello").emotion = detectEmotion "Hello"
    ∧ (generateResponse 0 0 0 0 "Hello").suggestedVoiceStyle = detectEmotion "Hello" :=
  emotion_set_and_style_identity 0 0 0 0 "Hello" (by decide)

/-- C2: a submitted turn is a no-op — the state is returned unchanged — when
the text is empty or whitespace-only, or the processing lock is held, or the
text equals the last accepted turn; and an accepted submission makes an
immediate identical resubmission a no-op, with exactly one user message and
one agent message appended across the two calls. -/
theorem submit_guards_and_idempotence (gen : String → Option GeneratedResponse)
    (t : String) (s : ConvState) :
    ((trimStr t == "" || s.isProcessing || t == s.lastProcessedInput) = true →
        handleAnswerRequest gen t s = s)
    ∧ ((trimStr t == "" || s.isProcessing || t == s.lastProcessedInput) = false →
        handleAnswerRequest gen t (handleAnswerRequest gen t s) = handleAnswerRequest gen t s
        ∧ ∃ a, (handleAnswerRequest gen t s).messages
            = s.messages ++ [ConvMessage.mk "user" t, ConvMessage.mk "ai" a]) := by
  constructor
  · intro hguard
    unfold handleAnswerRequest
    rw [hguard]
    rfl
  · intro hguard
    constructor
    · have h1 : ∀ s1 : ConvState, s1.lastProcessedInput = t → handleAnswerRequest gen t s1 = s1 := by
        intro s1 hlast
        unfold handleAnswerRequest
        rw [hlast, beq_self_eq_true, Bool.or_true]
        rfl
      apply h1
      unfold handleAnswerRequest
      rw [hguard]
      cases gen t <;> rfl
    · unfold handleAnswerRequest
      rw [hguard]
      cases gen t with
      | none => exact ⟨genErrorMessage, by simp⟩
      | some resp => exact ⟨resp.text, by simp⟩

/-- C2 witness: at the concrete inputs, a whitespace-only submission leaves
the initial state unchanged, and resubmitting `hello` right after an accepted
`hello` is a no-op. -/
theorem submit_guards_and_idempotence_witness :
    handleAnswerRequest (genTotal 0 0 0 0) " " initConv = initConv
    ∧ handleAnswerRequest (genTotal 0 0 0 0) "hello"
        (handleAnswerRequest (genTotal 0 0 0 0) "hello" initConv)
      = handleAnswerRequest (genTotal 0 0 0 0) "hello" initConv :=
  ⟨(submit_guards_and_idempotence (genTotal 0 0 0 0) " " initConv).1 (by decide),
   ((submit_guards_and_idempotence (genTotal 0 0 0 0) "hello" initConv).2 (by decide)).1⟩

/-- C3: when the classify/respond step throws on an accepted turn, the
controller appends the user message and the fixed apologetic agent message,
releases the processing lock, and a subsequent turn with different non-empty
text is accepted (its user and agent messages are appended). -/
theorem pipeline_error_releases_lock (t t2 : String) (s : ConvState)
    (gen2 : String → Option GeneratedResponse)
    (hacc : (trimStr t == "" || s.isProcessing || t == s.lastProcessedInput) = false)
    (ht2 : (trimStr t2 == "") = false) (hne : (t2 == t) = false) :
    (handleAnswerRequest (fun _ => none) t s).messages
        = s.messages ++ [ConvMessage.mk "user" t, ConvMessage.mk "ai" genErrorMessage]
    ∧ (handleAnswerRequest (fun _ => none) t s).isProcessing = false
    ∧ ∃ a, (handleAnswerRequest gen2 t2 (handleAnswerRequest (fun _ => none) t s)).messages
        = (handleAnswerRequest (fun _ => none) t s).messages
            ++ [ConvMessage.mk "user" t2, ConvMessage.mk "ai" a] := by
  have hs1 : handleAnswerRequest (fun _ => none) t s
      = { messages := s.messages ++ [ConvMessage.mk "user" t, ConvMessage.mk "ai" genErrorMessage],
          isProcessing := false, lastProcessedInput := t,
          currentAIResponse := genErrorMessage } := by
    unfold handleAnswerRequest
    rw [hacc]
    simp
  refine ⟨by rw [hs1], by rw [hs1], ?_⟩
  rw [hs1]
  unfold handleAnswerRequest
  rw [ht2, hne]
  simp only [Bool.false_or, Bool.or_false]
  cases gen2 t2 with
  | none => exact ⟨genErrorMessage, by simp⟩
  | some resp => exact ⟨resp.text, by simp⟩

/-- C3 witness: after a throwing pipeline on `ping` from the initial state,
the lock is released and a later `pong` submission is accepted. -/
theorem pipeline_error_releases_lock_witness :
    (handleAnswerRequest (fun _ => none) "ping" initConv).messages
        = initConv.messages ++ [ConvMessage.mk "user" "ping", ConvMessage.mk "ai" genErrorMessage]
    ∧ (handleAnswerRequest (fun _ => none) "ping" initConv).isProcessing = false
    ∧ ∃ a, (handleAnswerRequest (genTotal 0 0 0 0) "pong"
            (handleAnswerRequest (fun _ => none) "ping" initConv)).messages
        = (handleAnswerRequest (fun _ => none) "ping" initConv).messages
            ++ [ConvMessage.mk "user" "pong", ConvMessage.mk "ai" a] :=
  pipeline_error_releases_lock "ping" "pong" initConv (genTotal 0 0 0 0)
    (by decide) (by decide) (by decide)

/-- Folding a nonempty block of hypothesis events stores the last hypothesis
in both the React state and the ref, with a timer pending. -/
theorem foldl_hyps (texts : List String) (t : String) (h : texts.getLast? = some t) :
    ∀ s : DetState, List.foldl detStep s (texts.map DetEv.hyp)
      = { s with transcriptState := t, latestRef := t, timerActive := true } := by
  induction texts with
  | nil => simp at h
  | cons a l ih =>
    intro s
    cases l with
    | nil =>
      have ha : a = t := by simpa using h
      subst ha
      rfl
    | cons b l2 =>
      have h2 : (b :: l2).getLast? = some t := by
        rwa [List.getLast?_cons_cons] at h
      show List.foldl detStep (detStep s (DetEv.hyp a)) ((b :: l2).map DetEv.hyp)
        = { s with transcriptState := t, latestRef := t, timerActive := true }
      rw [ih h2 (detStep s (DetEv.hyp a))]
      rfl

/-- When every internal gap is below the threshold, the induced event sequence
is the hypotheses followed by the single final timer expiry. -/
theorem eventsOf_small_gaps (th : Nat) :
    ∀ l : List (Nat × String), l ≠ [] →
      List.Chain' (fun a b : Nat × String => b.1 < a.1 + th) l →
      eventsOf th l = (l.map fun p => DetEv.hyp p.2) ++ [DetEv.fire] := by
  intro l
  induction l with
  | nil => intro h; exact absurd rfl h
  | cons x l ih =>
    intro _ hch
    cases l with
    | nil =>
      obtain ⟨t1, h1⟩ := x
      rfl
    | cons y l2 =>
      rw [List.chain'_cons] at hch
      obtain ⟨hxy, hch2⟩ := hch
      obtain ⟨t1, h1⟩ := x
      obtain ⟨t2, h2⟩ := y
      show DetEv.hyp h1 ::
          ((if t1 + th ≤ t2 then [DetEv.fire] else []) ++ eventsOf th ((t2, h2) :: l2))
        = _
      rw [if_neg (by omega), ih (List.cons_ne_nil _ _) hch2]
      rfl

/-- C1 (amended): for timed hypotheses whose internal gaps are all below the
silence threshold, followed by a quiet gap at least the threshold, exactly one
turn is finalized and its text is the last hypothesis — read from the latest
accumulated text at timer-fire time — provided that last hypothesis is
non-empty after trimming. -/
theorem endpoint_silence_finalizes_latest_hypothesis (th : Nat)
    (l : List (Nat × String)) (t : String)
    (hlast : (l.map Prod.snd).getLast? = some t)
    (hgaps : List.Chain' (fun a b : Nat × String => b.1 < a.1 + th) l)
    (htext : trimStr t ≠ "") :
    (runDet (eventsOf th l)).emitted = [t] := by
  have hne : l ≠ [] := by
    intro hcon
    subst hcon
    simp at hlast
  rw [eventsOf_small_gaps th l hne hgaps]
  have hmaps : (l.map fun p => DetEv.hyp p.2) = (l.map Prod.snd).map DetEv.hyp := by
    rw [List.map_map]
    rfl
  unfold runDet
  rw [hmaps, List.foldl_append, foldl_hyps (l.map Prod.snd) t hlast initDet]
  have ht0 : (t == "") = false := by
    apply beq_eq_false_iff_ne.mpr
    intro hcon
    apply htext
    rw [hcon]
    rfl
  show (detStep { initDet with transcriptState := t, latestRef := t, timerActive := true }
      DetEv.fire).emitted = [t]
  unfold detStep handleAutoStop
  rw [if_pos rfl]
  dsimp only
  rw [ht0]
  simp only [Bool.false_eq_true, if_false, beq_eq_false_iff_ne.mpr htext]
  rfl

/-- C1 witness: two hypotheses 200 ms apart under a 1000 ms threshold followed
by silence finalize exactly one turn carrying the second hypothesis. -/
theorem endpoint_silence_finalizes_latest_hypothesis_witness :
    (runDet (eventsOf 1000 [(0, "hello"), (200, "hello there")])).emitted = ["hello there"] :=
  endpoint_silence_finalizes_latest_hypothesis 1000 [(0, "hello"), (200, "hello there")]
    "hello there" (by decide) (by norm_num [List.chain'_cons]) (by decide)

/-- C1 counterexample: when the latest hypothesis at fire time is empty, the
detector finalizes no turn at all, although an earlier non-empty hypothesis
(`hello`, the last non-empty one) was received — the claim would require
exactly one turn with text `hello`. -/
theorem endpoint_whitespace_final_drops_turn :
    (runDet (eventsOf 1000 [(0, "hello"), (200, ""), (400, "")])).emitted = []
    ∧ List.Chain' (fun a b : Nat × String => b.1 < a.1 + 1000)
        [(0, "hello"), (200, ""), (400, "")]
    ∧ trimStr "hello" ≠ "" := by
  refine ⟨by decide, by norm_num [List.chain'_cons], by decide⟩

/-- C4: no branch of `handleSpeak` ever invokes the browser speech-synthesis
fallback, and when the remote generation call fails with a network error the
component merely records the error and reports it through `onError` — playback
does not reach a speaking state and no local provider is engaged. -/
theorem remote_failure_engages_no_fallback :
    (∀ (text : String) (hasService : Bool) (gen : Except String String)
        (play : PlayOutcome) (cf : Bool) (s : TtsState),
        (handleSpeak text hasService gen play cf s).localCalls = s.localCalls)
    ∧ handleSpeak "Hello! How can I help you today?" true
        (Except.error "Failed to fetch") PlayOutcome.ok false initTts
      = { initTts with error := "Failed to fetch", onErrorLog := ["Failed to fetch"] }
    ∧ (handleSpeak "Hello! How can I help you today?" true
        (Except.error "Failed to fetch") PlayOutcome.ok false initTts).isSpeaking = false := by
  refine ⟨?_, by decide, by decide⟩
  intro text hasService gen play cf s
  unfold handleSpeak
  split
  · rfl
  · split
    · rfl
    · cases gen with
      | error msg => rfl
      | ok url => cases play <;> rfl

/-- C8: with no API key, the `useElevenLabs` flag is false for every value of
the environment toggle, so the rendered TTS component for a non-empty response
is the local browser one, which has no error callback wired — no generation
error can be surfaced as a failure. -/
theorem unconfigured_selects_local_tts (envUse : Option String) (resp : String)
    (hresp : (resp == "") = false) :
    useElevenLabs envUse none = false
    ∧ renderedTTS envUse none resp = some TTSChoice.localBrowser
    ∧ onErrorWired TTSChoice.localBrowser = false := by
  have hflag : useElevenLabs envUse none = false := by
    unfold useElevenLabs
    exact Bool.and_false _
  refine ⟨hflag, ?_, rfl⟩
  unfold renderedTTS
  rw [hresp, hflag]
  rfl

/-- C8 witness: with no environment toggle and no API key, a concrete
non-empty response renders the local browser TTS with no error channel. -/
theorem unconfigured_selects_local_tts_witness :
    useElevenLabs none none = false
    ∧ renderedTTS none none "Hello! How can I help you today?" = some TTSChoice.localBrowser
    ∧ onErrorWired TTSChoice.localBrowser = false :=
  unconfigured_selects_local_tts none "Hello! How can I help you today?" (by decide)

/-- C9 counterexample: under the app's own wiring (desktop: `autoSpeak` true,
`hideText` false, `isMobile` false, service configured), the state left by a
`NotAllowedError` has the needs-gesture flag set but the manual button is not
rendered at all — its render guard requires an empty error string, which this
branch has just set — so no tap-to-enable-audio affordance is surfaced and no
user-gesture retry path exists; only the error box text is shown. -/
theorem autoplay_blocked_no_affordance :
    (handleSpeak "Hi there!" true (Except.ok "blob:demo") PlayOutcome.notAllowed false initTts).needsUserInteraction = true
    ∧ (handleSpeak "Hi there!" true (Except.ok "blob:demo") PlayOutcome.notAllowed false initTts).error
        = "Tap to enable audio playback"
    ∧ renderedButton false true false true
        (handleSpeak "Hi there!" true (Except.ok "blob:demo") PlayOutcome.notAllowed false initTts) = none := by
  refine ⟨by decide, by decide, by decide⟩

/-- C9 (amended): when `audio.play()` is rejected with `NotAllowedError`, the
component sets the distinguished needs-user-gesture flag and does not report
the failure through `onError`, and the auto-speak effect can never schedule a
retry timer from the resulting state for any props; however no
tap-to-enable-audio affordance is surfaced: because the branch also sets the
error string non-empty, the manual button's render guard fails for every
combination of props, so the button — the only path that could call
`handleSpeak` on a user gesture — is not rendered and no retry path is
offered. -/
theorem autoplay_blocked_needs_gesture_no_retry (text url : String) (cf : Bool) (s : TtsState)
    (htext : (trimStr text == "") = false) :
    (handleSpeak text true (Except.ok url) PlayOutcome.notAllowed cf s).needsUserInteraction = true
    ∧ (handleSpeak text true (Except.ok url) PlayOutcome.notAllowed cf s).onErrorLog = s.onErrorLog
    ∧ (∀ (isMobile autoSpeak : Bool) (txt lastSpoken : String) (hasService : Bool),
        autoSpeakFires isMobile autoSpeak txt lastSpoken hasService
          (handleSpeak text true (Except.ok url) PlayOutcome.notAllowed cf s) = false)
    ∧ (∀ (hideText autoSpeak isMobile hasService : Bool),
        renderedButton hideText autoSpeak isMobile hasService
          (handleSpeak text true (Except.ok url) PlayOutcome.notAllowed cf s) = none) := by
  have hs2 : handleSpeak text true (Except.ok url) PlayOutcome.notAllowed cf s
      = { s with error := "Tap to enable audio playback", isLoading := false,
                 isSpeaking := cf || s.isSpeaking, needsUserInteraction := true } := by
    unfold handleSpeak
    rw [htext]
    rfl
  rw [hs2]
  refine ⟨rfl, rfl, ?_, ?_⟩
  · intro isMobile autoSpeak txt lastSpoken hasService
    unfold autoSpeakFires
    dsimp only
    rw [show (("Tap to enable audio playback" : String) == "") = false from by decide]
    simp
  · intro hideText autoSpeak isMobile hasService
    unfold renderedButton
    dsimp only
    rw [show (("Tap to enable audio playback" : String) == "") = false from by decide]
    cases hideText <;> simp

/-- C9 witness: at the concrete blocked first playback, the needs-gesture flag
is set, `onError` is not called, no retry timer can fire and the manual button
is not rendered for any props. -/
theorem autoplay_blocked_needs_gesture_no_retry_witness :
    (handleSpeak "Hi there!" true (Except.ok "blob:demo") PlayOutcome.notAllowed false initTts).needsUserInteraction = true
    ∧ (handleSpeak "Hi there!" true (Except.ok "blob:demo") PlayOutcome.notAllowed false initTts).onErrorLog = initTts.onErrorLog
    ∧ (∀ (isMobile autoSpeak : Bool) (txt lastSpoken : String) (hasService : Bool),
        autoSpeakFires isMobile autoSpeak txt lastSpoken hasService
          (handleSpeak "Hi there!" true (Except.ok "blob:demo") PlayOutcome.notAllowed false initTts) = false)
    ∧ (∀ (hideText autoSpeak isMobile hasService : Bool),
        renderedButton hideText autoSpeak isMobile hasService
          (handleSpeak "Hi there!" true (Except.ok "blob:demo") PlayOutcome.notAllowed false initTts) = none) :=
  autoplay_blocked_needs_gesture_no_retry "Hi there!" "blob:demo" false initTts (by decide)

/-- Invariant of the playback resource machine: the current element (if any)
points at an allocated resource, and every allocated resource other than the
current one has already been revoked at least once. -/
def pbInv (s : PbState) : Prop :=
  (∀ r, s.current = some r → r < s.allocated)
  ∧ (∀ i, i < s.allocated → s.current = some i ∨ 1 ≤ s.revokes i)

/-- A revoke bump does not decrease any count. -/
theorem bumpRevoke_ge (f : Nat → Nat) (r j : Nat) : f j ≤ bumpRevoke f r j := by
  unfold bumpRevoke
  split <;> omega

/-- A revoke bump increments the count of its target. -/
theorem bumpRevoke_self (f : Nat → Nat) (r : Nat) : bumpRevoke f r r = f r + 1 := by
  simp [bumpRevoke]

/-- The initial playback state satisfies the invariant. -/
theorem pbInv_init : pbInv initPb := by
  constructor
  · intro r hr
    simp [initPb] at hr
  · intro i hi
    simp [initPb] at hi

/-- Every playback event preserves the invariant. -/
theorem pbInv_step (s : PbState) (ev : PbEv) (h : pbInv s) : pbInv (pbStep s ev) := by
  obtain ⟨hcur, hrel⟩ := h
  cases ev with
  | speakGen =>
    constructor
    · intro r hr
      simp only [pbStep, Option.some.injEq] at hr
      simp [pbStep, ← hr]
    · intro i hi
      simp only [pbStep] at hi
      by_cases hia : i = s.allocated
      · left
        simp [pbStep, hia]
      · right
        have hi2 : i < s.allocated := by omega
        rcases hrel i hi2 with hc | hge
        · simp [pbStep, hc, bumpRevoke_self]
        · cases hc2 : s.current with
          | none => simpa [pbStep, hc2] using hge
          | some r => simp only [pbStep, hc2]; exact le_trans hge (bumpRevoke_ge _ _ _)
  | speakGenFail => exact ⟨hcur, hrel⟩
  | ended =>
    constructor
    · intro r hr
      exact hcur r hr
    · intro i hi
      rcases hrel i hi with hc | hge
      · left
        exact hc
      · right
        cases hc2 : s.current with
        | none => simpa [pbStep, hc2] using hge
        | some r => simp only [pbStep, hc2]; exact le_trans hge (bumpRevoke_ge _ _ _)
  | audioError =>
    constructor
    · intro r hr
      exact hcur r hr
    · intro i hi
      rcases hrel i hi with hc | hge
      · left
        exact hc
      · right
        cases hc2 : s.current with
        | none => simpa [pbStep, hc2] using hge
        | some r => simp only [pbStep, hc2]; exact le_trans hge (bumpRevoke_ge _ _ _)
  | stopClick => exact ⟨hcur, hrel⟩

/-- Folding any event trace preserves the invariant. -/
theorem pbInv_foldl (evs : List PbEv) : ∀ s, pbInv s → pbInv (evs.foldl pbStep s) := by
  induction evs with
  | nil => intro s h; exact h
  | cons e l ih => intro s h; exact ih (pbStep s e) (pbInv_step s e h)

/-- C5 (amended): over every playback trace ended by component teardown, each
allocated blob URL is revoked at least once — no resource is leaked — though
not exactly once (see the double-revoke counterexample). -/
theorem audio_url_released_at_least_once (evs : List PbEv) (i : Nat)
    (hi : i < (runPb evs).allocated) : 1 ≤ (runPb evs).revokes i := by
  have hinv : pbInv (evs.foldl pbStep initPb) := pbInv_foldl evs initPb pbInv_init
  have hi2 : i < (evs.foldl pbStep initPb).allocated := hi
  rcases hinv.2 i hi2 with hc | hge
  · show 1 ≤ (unmountPb (evs.foldl pbStep initPb)).revokes i
    simp [unmountPb, hc, bumpRevoke_self]
  · show 1 ≤ (unmountPb (evs.foldl pbStep initPb)).revokes i
    cases hc2 : (evs.foldl pbStep initPb).current with
    | none => simpa [unmountPb, hc2] using hge
    | some r => simp only [unmountPb, hc2]; exact le_trans hge (bumpRevoke_ge _ _ _)

/-- C5 witness: a playback trace with one generated URL releases it once by
teardown. -/
theorem audio_url_released_at_least_once_witness :
    0 < (runPb [PbEv.speakGen]).allocated ∧ 1 ≤ (runPb [PbEv.speakGen]).revokes 0 :=
  ⟨by decide, audio_url_released_at_least_once [PbEv.speakGen] 0 (by decide)⟩

/-- C5 counterexample: a URL whose audio ended normally (revoked once by
`onended`) is revoked a second time by the `[currentAudio]` effect cleanup
when the next speak supersedes the element — release is not exactly-once. -/
theorem audio_url_double_revoke :
    (runPb [PbEv.speakGen, PbEv.ended, PbEv.speakGen]).allocated = 2
    ∧ (runPb [PbEv.speakGen, PbEv.ended, PbEv.speakGen]).revokes 0 = 2
    ∧ (runPb [PbEv.speakGen, PbEv.ended, PbEv.speakGen]).revokes 1 = 1 := by
  refine ⟨by decide, by decide, by decide⟩

end VAgent
